import Mathlib

/-!
Verification development for `tensorflow/core/kernels/training_ops_gpu.cu.cc`.

The file shallow-embeds the GPU training-op kernels over exact real
arithmetic: a device array of length `n` with element type `T` becomes a
function `Fin n → ℝ`, a `ConstScalar` hyperparameter becomes a plain `ℝ`,
and both execution paths of each update family (the explicit ROCm
`__global__` kernel and the vectorized Eigen expression) become functions
from a per-family state record to a new state record.  Scalar `sqrt` and
`rsqrt` are `Real.sqrt` and its reciprocal, which is what the native
device primitives compute under exact arithmetic (the `Eigen::half`
specializations, which merely up-cast to `float` and back, are the
identity in this semantics).  Floating-point literals in the source are
interpreted by the real value they round: in particular the constant
`root2 = 0.7071067811865475` is the double rounding of `1/√2` and is
embedded as the exact `(Real.sqrt 2)⁻¹`; the thresholds `0.98` and the
polynomial coefficients `0.5, 0.125, 0.0625` are exact decimals.
-/

namespace TrainingOps

noncomputable section

/-- Real reciprocal square root: the device `rsqrt` primitive, `1/√x`. -/
def rsqrt (x : ℝ) : ℝ := (Real.sqrt x)⁻¹

/-- The constant `root2` of the hand-rolled complex routines.  The source
literal `0.7071067811865475` is the double rounding of `1/√2`; under the
exact-arithmetic semantics it is the exact value. -/
def root2 : ℝ := (Real.sqrt 2)⁻¹

/-- A complex value `std::complex<T>` as a pair of reals. -/
@[ext]
structure Cplx where
  re : ℝ
  im : ℝ

/-- Hand-rolled complex square root `impl_sqrt(std::complex<T>)`
(training_ops_gpu.cu.cc lines 57-68): with `mod_x = sqrt(re*re+im*im)`,
the result is `(sqrt(mod_x+re)*root2, sqrt(mod_x-re)*root2*(im>=0 ? 1 : -1))`. -/
def impl_sqrt (x : Cplx) : Cplx :=
  let re := x.re
  let im := x.im
  let mod_x := Real.sqrt (re * re + im * im)
  ⟨Real.sqrt (mod_x + re) * root2,
   Real.sqrt (mod_x - re) * root2 * (if 0 ≤ im then 1 else -1)⟩

/-- Helper `rsqrt_helper` (lines 70-74): the cancellation-avoiding polynomial
`0.5*x + 0.125*x*x + 0.0625*x*x*x`. -/
def rsqrt_helper (x : ℝ) : ℝ := 0.5 * x + 0.125 * x * x + 0.0625 * x * x * x

/-- Hand-rolled complex reciprocal square root `impl_rsqrt(std::complex<T>)`
(lines 76-89).  `isFloat` is the compile-time test
`std::is_same<T,float>::value` selecting the reduced-precision stability
branch; with `r = rsqrt(re*re+im*im)` the components are
`sqrt(r * (re*r<-0.98 ? rsqrt_helper(im*im*r*r) : 1+re*r)) * root2` and
`sqrt(r * (re*r> 0.98 ? rsqrt_helper(im*im*r*r) : 1-re*r)) * root2 * (im>=0 ? -1 : 1)`,
the polynomial branches taken only when `isFloat`.  (The source also
computes `ar2 = re*r*r`, a dead local it never reads.) -/
def impl_rsqrt (isFloat : Bool) (x : Cplx) : Cplx :=
  let re := x.re
  let im := x.im
  let r := rsqrt (re * re + im * im)
  ⟨Real.sqrt (r * (if isFloat ∧ re * r < -0.98 then rsqrt_helper (im * im * r * r)
                   else 1 + re * r)) * root2,
   Real.sqrt (r * (if isFloat ∧ 0.98 < re * r then rsqrt_helper (im * im * r * r)
                   else 1 - re * r)) * root2 * (if 0 ≤ im then -1 else 1)⟩

/-! ### Per-family state records

Each record bundles one update call's arrays (length `n`), scalar
hyperparameters and flags, exactly the arguments of the corresponding
functor `operator()` in the source. -/

@[ext]
structure GradientDescentState (n : ℕ) where
  var : Fin n → ℝ
  grad : Fin n → ℝ
  lr : ℝ

@[ext]
structure AdagradState (n : ℕ) where
  var : Fin n → ℝ
  accum : Fin n → ℝ
  grad : Fin n → ℝ
  lr : ℝ
  update_slots : Bool

@[ext]
structure AdagradV2State (n : ℕ) where
  var : Fin n → ℝ
  accum : Fin n → ℝ
  grad : Fin n → ℝ
  lr : ℝ
  epsilon : ℝ
  update_slots : Bool

@[ext]
structure AdadeltaState (n : ℕ) where
  var : Fin n → ℝ
  accum : Fin n → ℝ
  accum_update : Fin n → ℝ
  grad : Fin n → ℝ
  lr : ℝ
  rho : ℝ
  epsilon : ℝ

@[ext]
structure MomentumState (n : ℕ) where
  var : Fin n → ℝ
  accum : Fin n → ℝ
  grad : Fin n → ℝ
  lr : ℝ
  momentum : ℝ
  use_nesterov : Bool

@[ext]
structure AdamState (n : ℕ) where
  var : Fin n → ℝ
  m : Fin n → ℝ
  v : Fin n → ℝ
  grad : Fin n → ℝ
  beta1_power : ℝ
  beta2_power : ℝ
  lr : ℝ
  beta1 : ℝ
  beta2 : ℝ
  epsilon : ℝ
  use_nesterov : Bool

@[ext]
structure AmsgradState (n : ℕ) where
  var : Fin n → ℝ
  m : Fin n → ℝ
  v : Fin n → ℝ
  vhat : Fin n → ℝ
  grad : Fin n → ℝ
  beta1_power : ℝ
  beta2_power : ℝ
  lr : ℝ
  beta1 : ℝ
  beta2 : ℝ
  epsilon : ℝ

@[ext]
structure AdaMaxState (n : ℕ) where
  var : Fin n → ℝ
  m : Fin n → ℝ
  v : Fin n → ℝ
  grad : Fin n → ℝ
  beta1_power : ℝ
  lr : ℝ
  beta1 : ℝ
  beta2 : ℝ
  epsilon : ℝ

@[ext]
structure RMSPropState (n : ℕ) where
  var : Fin n → ℝ
  ms : Fin n → ℝ
  mom : Fin n → ℝ
  grad : Fin n → ℝ
  lr : ℝ
  rho : ℝ
  momentum : ℝ
  epsilon : ℝ

@[ext]
structure CenteredRMSPropState (n : ℕ) where
  var : Fin n → ℝ
  mg : Fin n → ℝ
  ms : Fin n → ℝ
  mom : Fin n → ℝ
  grad : Fin n → ℝ
  lr : ℝ
  rho : ℝ
  momentum : ℝ
  epsilon : ℝ

@[ext]
structure AddSignState (n : ℕ) where
  var : Fin n → ℝ
  m : Fin n → ℝ
  grad : Fin n → ℝ
  lr : ℝ
  alpha : ℝ
  sign_decay : ℝ
  beta : ℝ

@[ext]
structure PowerSignState (n : ℕ) where
  var : Fin n → ℝ
  m : Fin n → ℝ
  grad : Fin n → ℝ
  lr : ℝ
  logbase : ℝ
  sign_decay : ℝ
  beta : ℝ

/-! ### Explicit ROCm kernel paths

Each `__global__` kernel runs one loop iteration per index `i`; distinct
iterations touch disjoint elements, so the loop body at index `i`
determines the post-state pointwise.  For real element types
`impl_sqrt` / `impl_rsqrt` are the native `sqrt` / `rsqrt` (lines 48-51),
i.e. `Real.sqrt` / `rsqrt` here. -/

/-- Kernel `ApplyAdagradKernel` (lines 91-102): per index, if `update_slots`
then `accum[i] += grad[i]*grad[i]`; then
`var[i] -= lr[0] * grad[i] * impl_rsqrt(accum[i])` reading the possibly
updated `accum[i]`. -/
def ApplyAdagradKernel {n : ℕ} (s : AdagradState n) : AdagradState n :=
  let accum' := fun i =>
    if s.update_slots then s.accum i + s.grad i * s.grad i else s.accum i
  { s with
    accum := accum'
    var := fun i => s.var i - s.lr * s.grad i * rsqrt (accum' i) }

/-- Kernel `ApplyAdagradV2Kernel` (lines 104-117): per index, if `update_slots`
then `accum[i] += grad[i]*grad[i]`; then
`update = grad[i] / (impl_sqrt(accum[i]) + epsilon[0])`;
`var[i] -= lr[0] * update`. -/
def ApplyAdagradV2Kernel {n : ℕ} (s : AdagradV2State n) : AdagradV2State n :=
  let accum' := fun i =>
    if s.update_slots then s.accum i + s.grad i * s.grad i else s.accum i
  { s with
    accum := accum'
    var := fun i =>
      s.var i - s.lr * (s.grad i / (Real.sqrt (accum' i) + s.epsilon)) }

/-- Kernel `ApplyAdadeltaKernel` (lines 119-137): per index,
`accum[i] = accum[i]*rho + grad[i]*grad[i]*(1-rho)`;
`update = impl_sqrt(accum_update[i]+eps) * grad[i] * impl_rsqrt(accum[i]+eps)`;
`var[i] -= update*lr`;
`accum_update[i] = accum_update[i]*rho + update*update*(1-rho)`. -/
def ApplyAdadeltaKernel {n : ℕ} (s : AdadeltaState n) : AdadeltaState n :=
  let accum' := fun i =>
    s.accum i * s.rho + s.grad i * s.grad i * (1 - s.rho)
  let update := fun i =>
    Real.sqrt (s.accum_update i + s.epsilon) * s.grad i *
      rsqrt (accum' i + s.epsilon)
  { s with
    accum := accum'
    var := fun i => s.var i - update i * s.lr
    accum_update := fun i =>
      s.accum_update i * s.rho + update i * update i * (1 - s.rho) }

/-- Kernel `ApplyRMSPropKernel` (lines 139-157): per index,
`ms[i] += (1-rho)*(grad[i]*grad[i]-ms[i])`;
`mom[i] = mom[i]*momentum + lr * grad[i] * impl_rsqrt(eps+ms[i])`;
`var[i] -= mom[i]`. -/
def ApplyRMSPropKernel {n : ℕ} (s : RMSPropState n) : RMSPropState n :=
  let ms' := fun i => s.ms i + (1 - s.rho) * (s.grad i * s.grad i - s.ms i)
  let mom' := fun i =>
    s.mom i * s.momentum + s.lr * s.grad i * rsqrt (s.epsilon + ms' i)
  { s with
    ms := ms'
    mom := mom'
    var := fun i => s.var i - mom' i }

/-- Kernel `ApplyCenteredRMSPropKernel` (lines 159-180): per index,
`ms[i] += (1-rho)*(grad[i]*grad[i]-ms[i])`;
`mg[i] += (1-rho)*(grad[i]-mg[i])`;
`denom = (ms[i]-mg[i]*mg[i])+eps`;
`mom[i] = mom[i]*momentum + lr*grad[i]*impl_rsqrt(denom)`;
`var[i] -= mom[i]`. -/
def ApplyCenteredRMSPropKernel {n : ℕ} (s : CenteredRMSPropState n) :
    CenteredRMSPropState n :=
  let ms' := fun i => s.ms i + (1 - s.rho) * (s.grad i * s.grad i - s.ms i)
  let mg' := fun i => s.mg i + (1 - s.rho) * (s.grad i - s.mg i)
  let mom' := fun i =>
    s.mom i * s.momentum +
      s.lr * s.grad i * rsqrt (ms' i - mg' i * mg' i + s.epsilon)
  { s with
    ms := ms'
    mg := mg'
    mom := mom'
    var := fun i => s.var i - mom' i }

/-! ### Vectorized Eigen expression paths

Each functor body is a sequence of whole-array device assignments;
`reshape(single).broadcast(bcast)` of a `ConstScalar` is the runtime
broadcast of the scalar to every index, and an assignment completes
before the next expression reads the array it wrote. -/

/-- Functor `ApplyGradientDescent` (lines 29-39): `var -= lr.broadcast * grad`. -/
def ApplyGradientDescent {n : ℕ} (s : GradientDescentState n) :
    GradientDescentState n :=
  { s with var := fun i => s.var i - s.lr * s.grad i }

/-- Functor `ApplyAdagrad`, CUDA branch (lines 198-206): if `update_slots` then
`accum += grad.square()`; then `var -= lr.broadcast * grad * accum.rsqrt()`. -/
def ApplyAdagrad {n : ℕ} (s : AdagradState n) : AdagradState n :=
  let accum' :=
    if s.update_slots then fun i => s.accum i + s.grad i * s.grad i
    else s.accum
  { s with
    accum := accum'
    var := fun i => s.var i - s.lr * s.grad i * rsqrt (accum' i) }

/-- Functor `ApplyAdagradV2`, CUDA branch (lines 225-234): if `update_slots` then
`accum += grad.square()`; `update = grad / (accum.sqrt() + epsilon.broadcast)`;
`var -= lr.broadcast * update`. -/
def ApplyAdagradV2 {n : ℕ} (s : AdagradV2State n) : AdagradV2State n :=
  let accum' :=
    if s.update_slots then fun i => s.accum i + s.grad i * s.grad i
    else s.accum
  { s with
    accum := accum'
    var := fun i =>
      s.var i - s.lr * (s.grad i / (Real.sqrt (accum' i) + s.epsilon)) }

/-- Functor `ApplyAdadelta`, CUDA branch (lines 257-272):
`accum = accum*rho.broadcast + grad.square()*(1-rho.broadcast)`;
`update = (accum_update+eps.broadcast).sqrt() * (accum+eps.broadcast).rsqrt() * grad`;
`var -= update * lr.broadcast`;
`accum_update = accum_update*rho.broadcast + update.square()*(1-rho.broadcast)`. -/
def ApplyAdadelta {n : ℕ} (s : AdadeltaState n) : AdadeltaState n :=
  let accum' := fun i =>
    s.accum i * s.rho + s.grad i * s.grad i * (1 - s.rho)
  let update := fun i =>
    Real.sqrt (s.accum_update i + s.epsilon) *
      rsqrt (accum' i + s.epsilon) * s.grad i
  { s with
    accum := accum'
    var := fun i => s.var i - update i * s.lr
    accum_update := fun i =>
      s.accum_update i * s.rho + update i * update i * (1 - s.rho) }

/-- Functor `ApplyMomentum` (lines 277-296):
`accum = accum*momentum.broadcast + grad`; if `use_nesterov` then
`var -= grad*lr.broadcast + accum*momentum.broadcast*lr.broadcast` else
`var -= lr.broadcast*accum`. -/
def ApplyMomentum {n : ℕ} (s : MomentumState n) : MomentumState n :=
  let accum' := fun i => s.accum i * s.momentum + s.grad i
  { s with
    accum := accum'
    var :=
      if s.use_nesterov then
        fun i => s.var i - (s.grad i * s.lr + accum' i * s.momentum * s.lr)
      else fun i => s.var i - s.lr * accum' i }

/-- Functor `ApplyKerasMomentum` (lines 298-317):
`accum = accum*momentum.broadcast - grad*lr.broadcast`; if `use_nesterov`
then `var += accum*momentum.broadcast - grad*lr.broadcast` else
`var += accum`. -/
def ApplyKerasMomentum {n : ℕ} (s : MomentumState n) : MomentumState n :=
  let accum' := fun i => s.accum i * s.momentum - s.grad i * s.lr
  { s with
    accum := accum'
    var :=
      if s.use_nesterov then
        fun i => s.var i + (accum' i * s.momentum - s.grad i * s.lr)
      else fun i => s.var i + accum' i }

/-- Functor `ApplyAdam` (lines 319-360):
`m = m + (1-beta1).broadcast*(grad-m)`;
`v = v + (1-beta2).broadcast*(grad.square()-v)`; then with step size
`lr*(1-beta2_power).sqrt()/(1-beta1_power)` broadcast, if `use_nesterov`
`var -= step*(m*beta1.broadcast+(1-beta1).broadcast*grad)/(epsilon.broadcast+v.sqrt())`
else `var -= step*m/(epsilon.broadcast+v.sqrt())`. -/
def ApplyAdam {n : ℕ} (s : AdamState n) : AdamState n :=
  let m' := fun i => s.m i + (1 - s.beta1) * (s.grad i - s.m i)
  let v' := fun i => s.v i + (1 - s.beta2) * (s.grad i * s.grad i - s.v i)
  { s with
    m := m'
    v := v'
    var :=
      if s.use_nesterov then
        fun i =>
          s.var i -
            s.lr * Real.sqrt (1 - s.beta2_power) / (1 - s.beta1_power) *
              (m' i * s.beta1 + (1 - s.beta1) * s.grad i) /
              (s.epsilon + Real.sqrt (v' i))
      else
        fun i =>
          s.var i -
            s.lr * Real.sqrt (1 - s.beta2_power) / (1 - s.beta1_power) *
              m' i / (s.epsilon + Real.sqrt (v' i)) }

/-- Functor `ApplyAdamWithAmsgrad` (lines 362-393): `m`, `v` as in `ApplyAdam`;
`vhat = vhat.cwiseMax(v)`;
`var -= step*m/(epsilon.broadcast+vhat.sqrt())`. -/
def ApplyAdamWithAmsgrad {n : ℕ} (s : AmsgradState n) : AmsgradState n :=
  let m' := fun i => s.m i + (1 - s.beta1) * (s.grad i - s.m i)
  let v' := fun i => s.v i + (1 - s.beta2) * (s.grad i * s.grad i - s.v i)
  let vhat' := fun i => max (s.vhat i) (v' i)
  { s with
    m := m'
    v := v'
    vhat := vhat'
    var := fun i =>
      s.var i -
        s.lr * Real.sqrt (1 - s.beta2_power) / (1 - s.beta1_power) *
          m' i / (s.epsilon + Real.sqrt (vhat' i)) }

/-- Functor `ApplyAdaMax` (lines 395-419):
`m = m + (1-beta1).broadcast*(grad-m)`;
`v = (beta2.broadcast*v).cwiseMax(grad.abs())`;
`var -= lr/(1-beta1_power).broadcast * (m/(v+epsilon))`.  Unlike every
other scalar in the file, `epsilon` here carries no
`reshape(single).broadcast(bcast)`; this embedding reads `v + epsilon`
as the intended elementwise broadcast, which is exact only at index 0
of the rank-0 source tensor (see the AdaMax analysis). -/
def ApplyAdaMax {n : ℕ} (s : AdaMaxState n) : AdaMaxState n :=
  let m' := fun i => s.m i + (1 - s.beta1) * (s.grad i - s.m i)
  let v' := fun i => max (s.beta2 * s.v i) |s.grad i|
  { s with
    m := m'
    v := v'
    var := fun i =>
      s.var i - s.lr / (1 - s.beta1_power) * (m' i / (v' i + s.epsilon)) }

/-- Functor `ApplyRMSProp`, CUDA branch (lines 439-451):
`ms = ms + (1-rho).broadcast*(grad.square()-ms)`;
`mom = mom*momentum.broadcast + lr.broadcast*grad/((epsilon.broadcast+ms).sqrt())`;
`var -= mom`. -/
def ApplyRMSProp {n : ℕ} (s : RMSPropState n) : RMSPropState n :=
  let ms' := fun i => s.ms i + (1 - s.rho) * (s.grad i * s.grad i - s.ms i)
  let mom' := fun i =>
    s.mom i * s.momentum + s.lr * s.grad i / Real.sqrt (s.epsilon + ms' i)
  { s with
    ms := ms'
    mom := mom'
    var := fun i => s.var i - mom' i }

/-- Functor `ApplyCenteredRMSProp`, CUDA branch (lines 475-487):
`ms = ms + (1-rho).broadcast*(grad.square()-ms)`;
`mg = mg + (1-rho).broadcast*(grad-mg)`;
`denom = (ms-mg.square()) + epsilon.broadcast`;
`mom = mom*momentum.broadcast + lr.broadcast*grad/denom.sqrt()`;
`var -= mom`. -/
def ApplyCenteredRMSProp {n : ℕ} (s : CenteredRMSPropState n) :
    CenteredRMSPropState n :=
  let ms' := fun i => s.ms i + (1 - s.rho) * (s.grad i * s.grad i - s.ms i)
  let mg' := fun i => s.mg i + (1 - s.rho) * (s.grad i - s.mg i)
  let mom' := fun i =>
    s.mom i * s.momentum +
      s.lr * s.grad i / Real.sqrt (ms' i - mg' i * mg' i + s.epsilon)
  { s with
    ms := ms'
    mg := mg'
    mom := mom'
    var := fun i => s.var i - mom' i }

/-- Functor `ApplyAddSign` (lines 492-522):
`m = m*beta.broadcast + grad*(1-beta).broadcast`;
`sign_gm = grad.sign()*m.sign()` (on the updated `m`);
`var -= lr.broadcast*(alpha.broadcast+sign_decay.broadcast*sign_gm)*grad`.
Eigen's real `sign` is `Real.sign` (zero at zero). -/
def ApplyAddSign {n : ℕ} (s : AddSignState n) : AddSignState n :=
  let m' := fun i => s.m i * s.beta + s.grad i * (1 - s.beta)
  { s with
    m := m'
    var := fun i =>
      s.var i -
        s.lr * (s.alpha + s.sign_decay * (Real.sign (s.grad i) * Real.sign (m' i))) *
          s.grad i }

/-- Functor `ApplyPowerSign` (lines 524-555):
`m = m*beta.broadcast + grad*(1-beta).broadcast`;
`sign_gm = grad.sign()*m.sign()` (on the updated `m`);
`grad_scale = (logbase.broadcast*sign_decay.broadcast*sign_gm).exp()`;
`var -= lr.broadcast*grad_scale*grad`. -/
def ApplyPowerSign {n : ℕ} (s : PowerSignState n) : PowerSignState n :=
  let m' := fun i => s.m i * s.beta + s.grad i * (1 - s.beta)
  { s with
    m := m'
    var := fun i =>
      s.var i -
        s.lr *
          Real.exp (s.logbase * s.sign_decay *
            (Real.sign (s.grad i) * Real.sign (m' i))) *
          s.grad i }

/-! ### ROCm launch wrappers -/

/-- Fatal launch-configuration failure. -/
inductive LaunchError where
  | invalidElementCount

/-- Modelled from the spec: `GetGpuLaunchConfig` (declared in
`tensorflow/core/util/gpu_kernel_helper.h`, which is not under `src/`)
validates the work element count before any kernel launch; per the spec's
failure semantics an `N = 0` call is an invalid launch configuration and
is rejected as a fatal condition before any element processing. -/
def GetGpuLaunchConfigOk (workElementCount : ℕ) : Except LaunchError Unit :=
  if workElementCount = 0 then Except.error LaunchError.invalidElementCount
  else Except.ok ()

/-- ROCm branch of `ApplyAdagrad` (lines 190-197): obtain a launch
configuration for `grad.dimension(0)` elements, then launch
`ApplyAdagradKernel`. -/
def ApplyAdagradROCm {n : ℕ} (s : AdagradState n) :
    Except LaunchError (AdagradState n) :=
  (GetGpuLaunchConfigOk n).map fun _ => ApplyAdagradKernel s

/-- ROCm branch of `ApplyAdagradV2` (lines 217-224). -/
def ApplyAdagradV2ROCm {n : ℕ} (s : AdagradV2State n) :
    Except LaunchError (AdagradV2State n) :=
  (GetGpuLaunchConfigOk n).map fun _ => ApplyAdagradV2Kernel s

/-- ROCm branch of `ApplyAdadelta` (lines 248-256). -/
def ApplyAdadeltaROCm {n : ℕ} (s : AdadeltaState n) :
    Except LaunchError (AdadeltaState n) :=
  (GetGpuLaunchConfigOk n).map fun _ => ApplyAdadeltaKernel s

/-- ROCm branch of `ApplyRMSProp` (lines 430-438). -/
def ApplyRMSPropROCm {n : ℕ} (s : RMSPropState n) :
    Except LaunchError (RMSPropState n) :=
  (GetGpuLaunchConfigOk n).map fun _ => ApplyRMSPropKernel s

/-- ROCm branch of `ApplyCenteredRMSProp` (lines 466-474). -/
def ApplyCenteredRMSPropROCm {n : ℕ} (s : CenteredRMSPropState n) :
    Except LaunchError (CenteredRMSPropState n) :=
  (GetGpuLaunchConfigOk n).map fun _ => ApplyCenteredRMSPropKernel s

end

/-! ### Path equivalence helper lemmas -/

theorem adagrad_paths_eq {n : ℕ} (s : AdagradState n) :
    ApplyAdagradKernel s = ApplyAdagrad s := by
  cases s with
  | mk var accum grad lr slots =>
    cases slots <;> rfl

theorem adagradV2_paths_eq {n : ℕ} (s : AdagradV2State n) :
    ApplyAdagradV2Kernel s = ApplyAdagradV2 s := by
  cases s with
  | mk var accum grad lr eps slots =>
    cases slots <;> rfl

theorem adadelta_paths_eq {n : ℕ} (s : AdadeltaState n) :
    ApplyAdadeltaKernel s = ApplyAdadelta s := by
  cases s with
  | mk var accum accum_update grad lr rho eps =>
    simp only [ApplyAdadeltaKernel, ApplyAdadelta]
    ext i <;> ring

theorem rmsprop_paths_eq {n : ℕ} (s : RMSPropState n) :
    ApplyRMSPropKernel s = ApplyRMSProp s := by
  cases s with
  | mk var ms mom grad lr rho momentum eps =>
    simp only [ApplyRMSPropKernel, ApplyRMSProp, rsqrt, div_eq_mul_inv]

theorem centered_rmsprop_paths_eq {n : ℕ} (s : CenteredRMSPropState n) :
    ApplyCenteredRMSPropKernel s = ApplyCenteredRMSProp s := by
  cases s with
  | mk var mg ms mom grad lr rho momentum eps =>
    simp only [ApplyCenteredRMSPropKernel, ApplyCenteredRMSProp, rsqrt,
      div_eq_mul_inv]

/-- C1: for every update family with both execution paths in this file
(Adagrad, AdagradV2, Adadelta, RMSProp, CenteredRMSProp) and every input
state, the explicit parallel-loop kernel path and the vectorized Eigen
expression path compute the same post-state under exact arithmetic. -/
theorem kernel_eigen_paths_agree :
    (∀ (n : ℕ) (s : AdagradState n), ApplyAdagradKernel s = ApplyAdagrad s) ∧
    (∀ (n : ℕ) (s : AdagradV2State n),
        ApplyAdagradV2Kernel s = ApplyAdagradV2 s) ∧
    (∀ (n : ℕ) (s : AdadeltaState n),
        ApplyAdadeltaKernel s = ApplyAdadelta s) ∧
    (∀ (n : ℕ) (s : RMSPropState n), ApplyRMSPropKernel s = ApplyRMSProp s) ∧
    (∀ (n : ℕ) (s : CenteredRMSPropState n),
        ApplyCenteredRMSPropKernel s = ApplyCenteredRMSProp s) :=
  ⟨fun _ => adagrad_paths_eq, fun _ => adagradV2_paths_eq,
   fun _ => adadelta_paths_eq, fun _ => rmsprop_paths_eq,
   fun _ => centered_rmsprop_paths_eq⟩

/-! ### Complex primitive specifications -/

/-- C2: for every complex input `re + i*im`, with `mod = sqrt(re^2+im^2)`,
`impl_sqrt` returns real part `sqrt((mod+re)/2)` and imaginary part
`sqrt((mod-re)/2)` carrying the sign of `im`, the non-negative branch
being chosen when `0 ≤ im` (including `im = 0`). -/
theorem impl_sqrt_spec (re im : ℝ) :
    (impl_sqrt ⟨re, im⟩).re =
      Real.sqrt ((Real.sqrt (re * re + im * im) + re) / 2) ∧
    (impl_sqrt ⟨re, im⟩).im =
      (if 0 ≤ im then Real.sqrt ((Real.sqrt (re * re + im * im) - re) / 2)
       else -Real.sqrt ((Real.sqrt (re * re + im * im) - re) / 2)) := by
  have key : ∀ a : ℝ, Real.sqrt a * root2 = Real.sqrt (a / 2) := by
    intro a
    rw [root2, div_eq_mul_inv,
      Real.sqrt_mul' a (by norm_num : (0:ℝ) ≤ 2⁻¹), Real.sqrt_inv]
  constructor
  · simpa [impl_sqrt] using key _
  · by_cases him : 0 ≤ im
    · simp [impl_sqrt, him, key]
    · simp [impl_sqrt, him, ← key]

/-- The exact ratio `re/sqrt(re^2+im^2)` always lies in `[-1, 1]`
(with the embedding's convention `rsqrt 0 = 0`). -/
theorem abs_re_mul_rsqrt_le_one (re im : ℝ) :
    |re * rsqrt (re * re + im * im)| ≤ 1 := by
  rcases lt_or_eq_of_le
      (add_nonneg (mul_self_nonneg re) (mul_self_nonneg im)) with h | h
  · have hs : 0 < Real.sqrt (re * re + im * im) := Real.sqrt_pos.mpr h
    rw [rsqrt, abs_mul, abs_inv, abs_of_pos hs, ← div_eq_mul_inv,
      div_le_one hs, ← Real.sqrt_sq_eq_abs]
    apply Real.sqrt_le_sqrt
    nlinarith [sq_nonneg im]
  · have hre : re = 0 := by nlinarith [mul_self_nonneg re, mul_self_nonneg im]
    simp [hre]

/-- C3: for every complex input with `r = rsqrt(re^2+im^2)`, `impl_rsqrt`
returns real part `sqrt(r*(1+re*r))/sqrt 2` and imaginary part
`-sqrt(r*(1-re*r))/sqrt 2` for `0 ≤ im` (positive branch otherwise, the
sign convention opposite to `impl_sqrt`), except that in reduced
precision (`isFloat`), when `re*r` is within `0.02` of `-1`
(respectively `+1`), the factor `1+re*r` (respectively `1-re*r`) is
replaced by the polynomial `0.5u + 0.125u^2 + 0.0625u^3` with
`u = im^2*r^2`; full-precision inputs always use direct subtraction. -/
theorem impl_rsqrt_spec (isFloat : Bool) (re im : ℝ) :
    (impl_rsqrt isFloat ⟨re, im⟩).re =
      Real.sqrt (rsqrt (re * re + im * im) *
        (if isFloat ∧ |re * rsqrt (re * re + im * im) + 1| < 0.02 then
           0.5 * (im * im * rsqrt (re * re + im * im) * rsqrt (re * re + im * im)) +
             0.125 * (im * im * rsqrt (re * re + im * im) * rsqrt (re * re + im * im))^2 +
             0.0625 * (im * im * rsqrt (re * re + im * im) * rsqrt (re * re + im * im))^3
         else 1 + re * rsqrt (re * re + im * im))) / Real.sqrt 2 ∧
    (impl_rsqrt isFloat ⟨re, im⟩).im =
      (if 0 ≤ im then
        -(Real.sqrt (rsqrt (re * re + im * im) *
          (if isFloat ∧ |re * rsqrt (re * re + im * im) - 1| < 0.02 then
             0.5 * (im * im * rsqrt (re * re + im * im) * rsqrt (re * re + im * im)) +
               0.125 * (im * im * rsqrt (re * re + im * im) * rsqrt (re * re + im * im))^2 +
               0.0625 * (im * im * rsqrt (re * re + im * im) * rsqrt (re * re + im * im))^3
           else 1 - re * rsqrt (re * re + im * im))) / Real.sqrt 2)
       else
        Real.sqrt (rsqrt (re * re + im * im) *
          (if isFloat ∧ |re * rsqrt (re * re + im * im) - 1| < 0.02 then
             0.5 * (im * im * rsqrt (re * re + im * im) * rsqrt (re * re + im * im)) +
               0.125 * (im * im * rsqrt (re * re + im * im) * rsqrt (re * re + im * im))^2 +
               0.0625 * (im * im * rsqrt (re * re + im * im) * rsqrt (re * re + im * im))^3
           else 1 - re * rsqrt (re * re + im * im))) / Real.sqrt 2) := by
  set r := rsqrt (re * re + im * im) with hr
  have habs := abs_le.mp (abs_re_mul_rsqrt_le_one re im)
  rw [← hr] at habs
  have h1 : (isFloat ∧ re * r < -0.98) ↔ (isFloat ∧ |re * r + 1| < 0.02) := by
    apply and_congr_right
    intro _
    constructor
    · intro h
      rw [abs_lt]
      constructor <;> linarith [habs.1, habs.2]
    · intro h
      linarith [(abs_lt.mp h).2]
  have h2 : (isFloat ∧ 0.98 < re * r) ↔ (isFloat ∧ |re * r - 1| < 0.02) := by
    apply and_congr_right
    intro _
    constructor
    · intro h
      rw [abs_lt]
      constructor <;> linarith [habs.1, habs.2]
    · intro h
      linarith [(abs_lt.mp h).1]
  have hpoly : rsqrt_helper (im * im * r * r) =
      0.5 * (im * im * r * r) + 0.125 * (im * im * r * r)^2 +
        0.0625 * (im * im * r * r)^3 := by
    rw [rsqrt_helper]; ring
  constructor
  · simp only [impl_rsqrt, ← hr, h1, hpoly, root2, div_eq_mul_inv]
  · by_cases him : 0 ≤ im <;>
      simp only [impl_rsqrt, ← hr, h2, hpoly, root2, div_eq_mul_inv, him,
        if_true, if_false] <;>
      ring

/-! ### Update-rule specifications -/

/-- C4: an Adagrad call with `update_slots = false` leaves every element
of `accum` unchanged and updates `var[i]` by
`-= lr * grad[i] * rsqrt(accum[i])` with the pre-call `accum`; with
`update_slots = true` the accumulator grows by `grad[i]^2` first and the
`var` update reads the updated accumulator; concretely, `var=[1.0]`,
`accum=[0.0]`, `lr=0.1`, `grad=[2.0]` with `update_slots = true` yields
`accum=[4.0]`, `var=[0.9]`. -/
theorem adagrad_update_slots_spec :
    (∀ (n : ℕ) (var accum grad : Fin n → ℝ) (lr : ℝ),
      (ApplyAdagradKernel ⟨var, accum, grad, lr, false⟩).accum = accum ∧
      (ApplyAdagradKernel ⟨var, accum, grad, lr, false⟩).var =
        (fun i => var i - lr * grad i * rsqrt (accum i)) ∧
      (ApplyAdagradKernel ⟨var, accum, grad, lr, true⟩).accum =
        (fun i => accum i + grad i * grad i) ∧
      (ApplyAdagradKernel ⟨var, accum, grad, lr, true⟩).var =
        (fun i => var i - lr * grad i * rsqrt (accum i + grad i * grad i))) ∧
    (ApplyAdagradKernel
      (⟨fun _ => 1, fun _ => 0, fun _ => 2, 0.1, true⟩ :
        AdagradState 1)).accum 0 = 4 ∧
    (ApplyAdagradKernel
      (⟨fun _ => 1, fun _ => 0, fun _ => 2, 0.1, true⟩ :
        AdagradState 1)).var 0 = 0.9 := by
  have h4 : Real.sqrt (4:ℝ) = 2 := by
    rw [show (4:ℝ) = 2^2 by norm_num]
    exact Real.sqrt_sq (by norm_num)
  refine ⟨fun n var accum grad lr => ⟨rfl, rfl, rfl, rfl⟩, ?_, ?_⟩
  · norm_num [ApplyAdagradKernel]
  · norm_num [ApplyAdagradKernel, rsqrt, h4]

/-- C5: each Adam call updates `m += (1-beta1)*(grad-m)` and
`v += (1-beta2)*(grad^2-v)`, uses step size
`alpha = lr*sqrt(1-beta2_power)/(1-beta1_power)`, and decrements `var` by
`alpha*(m*beta1+(1-beta1)*grad)/(eps+sqrt(v))` under Nesterov and by
`alpha*m/(eps+sqrt(v))` otherwise, `m` and `v` being the freshly updated
values; the non-Nesterov step with `beta1=0.9`, `beta2=0.999`,
`beta1_power=0.9`, `beta2_power=0.999`, `lr=0.001`, `eps=1e-8`, `m=[0]`,
`v=[0]`, `grad=[1.0]` yields `m=[0.1]`, `v=[0.001]` and decrements `var`
by `alpha*0.1/(1e-8+sqrt(0.001))`. -/
theorem adam_spec :
    (∀ (n : ℕ) (s : AdamState n),
      (ApplyAdam s).m = (fun i => s.m i + (1 - s.beta1) * (s.grad i - s.m i)) ∧
      (ApplyAdam s).v =
        (fun i => s.v i + (1 - s.beta2) * (s.grad i * s.grad i - s.v i)) ∧
      (ApplyAdam s).var = (fun i =>
        if s.use_nesterov then
          s.var i -
            s.lr * Real.sqrt (1 - s.beta2_power) / (1 - s.beta1_power) *
              ((ApplyAdam s).m i * s.beta1 + (1 - s.beta1) * s.grad i) /
              (s.epsilon + Real.sqrt ((ApplyAdam s).v i))
        else
          s.var i -
            s.lr * Real.sqrt (1 - s.beta2_power) / (1 - s.beta1_power) *
              (ApplyAdam s).m i /
              (s.epsilon + Real.sqrt ((ApplyAdam s).v i)))) ∧
    (ApplyAdam
      (⟨fun _ => 1, fun _ => 0, fun _ => 0, fun _ => 1,
        0.9, 0.999, 0.001, 0.9, 0.999, 1e-8, false⟩ : AdamState 1)).m 0 =
      0.1 ∧
    (ApplyAdam
      (⟨fun _ => 1, fun _ => 0, fun _ => 0, fun _ => 1,
        0.9, 0.999, 0.001, 0.9, 0.999, 1e-8, false⟩ : AdamState 1)).v 0 =
      0.001 ∧
    (ApplyAdam
      (⟨fun _ => 1, fun _ => 0, fun _ => 0, fun _ => 1,
        0.9, 0.999, 0.001, 0.9, 0.999, 1e-8, false⟩ : AdamState 1)).var 0 =
      1 - 0.001 * Real.sqrt (1 - 0.999) / (1 - 0.9) * 0.1 /
        (1e-8 + Real.sqrt 0.001) := by
  refine ⟨fun n s => ⟨rfl, rfl, ?_⟩, ?_, ?_, ?_⟩
  · cases h : s.use_nesterov <;> simp [ApplyAdam, h]
  · norm_num [ApplyAdam]
  · norm_num [ApplyAdam]
  · norm_num [ApplyAdam]

/-- C9: for every AdamWithAmsgrad call and index, the post-call `vhat[i]`
is at least the pre-call `vhat[i]` and equals the maximum of the pre-call
`vhat[i]` and the freshly updated `v[i]`. -/
theorem amsgrad_vhat_monotone :
    ∀ (n : ℕ) (s : AmsgradState n) (i : Fin n),
      s.vhat i ≤ (ApplyAdamWithAmsgrad s).vhat i ∧
      (ApplyAdamWithAmsgrad s).vhat i =
        max (s.vhat i) ((ApplyAdamWithAmsgrad s).v i) :=
  fun _ _ _ => ⟨le_max_left _ _, rfl⟩

/-- C10: two Adam runs from the same pre-state differing only in the
`use_nesterov` flag produce identical post-call `m` and `v`; the flag
influences only the `var` update. -/
theorem adam_nesterov_flag_mv_invariant :
    ∀ (n : ℕ) (s : AdamState n) (b₁ b₂ : Bool),
      (ApplyAdam { s with use_nesterov := b₁ }).m =
        (ApplyAdam { s with use_nesterov := b₂ }).m ∧
      (ApplyAdam { s with use_nesterov := b₁ }).v =
        (ApplyAdam { s with use_nesterov := b₂ }).v :=
  fun _ _ _ _ => ⟨rfl, rfl⟩

/-- AdaMax analysis: at `N = 1` — the only length at which the source's
un-broadcast rank-0 `epsilon` tensor is read in bounds, so the embedding
is exact — the per-element formulas hold: `m += (1-beta1)*(grad-m)`,
`v = max(beta2*v, |grad|)`, `var -= (lr/(1-beta1_power)) * m/(v+eps)`
with the freshly updated `m` and `v`. -/
theorem adamax_single_element_formula :
    ∀ (s : AdaMaxState 1) (i : Fin 1),
      (ApplyAdaMax s).m i = s.m i + (1 - s.beta1) * (s.grad i - s.m i) ∧
      (ApplyAdaMax s).v i = max (s.beta2 * s.v i) |s.grad i| ∧
      (ApplyAdaMax s).var i =
        s.var i - s.lr / (1 - s.beta1_power) *
          ((ApplyAdaMax s).m i / ((ApplyAdaMax s).v i + s.epsilon)) :=
  fun _ _ => ⟨rfl, rfl, rfl⟩

/-! ### Dispatch-layer properties -/

/-- C7: a call with `N = 0` launches no kernel and mutates no element:
on the explicit-kernel path the launch configuration is rejected as a
fatal error before the kernel runs, and on the vectorized path an empty
call leaves the state unchanged. -/
theorem empty_call_spec :
    (∀ s : AdagradState 0,
        ApplyAdagradROCm s = Except.error LaunchError.invalidElementCount) ∧
    (∀ s : AdagradV2State 0,
        ApplyAdagradV2ROCm s = Except.error LaunchError.invalidElementCount) ∧
    (∀ s : AdadeltaState 0,
        ApplyAdadeltaROCm s = Except.error LaunchError.invalidElementCount) ∧
    (∀ s : RMSPropState 0,
        ApplyRMSPropROCm s = Except.error LaunchError.invalidElementCount) ∧
    (∀ s : CenteredRMSPropState 0,
        ApplyCenteredRMSPropROCm s =
          Except.error LaunchError.invalidElementCount) ∧
    (∀ s : GradientDescentState 0, ApplyGradientDescent s = s) ∧
    (∀ s : AdagradState 0, ApplyAdagrad s = s) ∧
    (∀ s : AdagradV2State 0, ApplyAdagradV2 s = s) ∧
    (∀ s : AdadeltaState 0, ApplyAdadelta s = s) ∧
    (∀ s : MomentumState 0, ApplyMomentum s = s) ∧
    (∀ s : MomentumState 0, ApplyKerasMomentum s = s) ∧
    (∀ s : AdamState 0, ApplyAdam s = s) ∧
    (∀ s : AmsgradState 0, ApplyAdamWithAmsgrad s = s) ∧
    (∀ s : AdaMaxState 0, ApplyAdaMax s = s) ∧
    (∀ s : RMSPropState 0, ApplyRMSProp s = s) ∧
    (∀ s : CenteredRMSPropState 0, ApplyCenteredRMSProp s = s) ∧
    (∀ s : AddSignState 0, ApplyAddSign s = s) ∧
    (∀ s : PowerSignState 0, ApplyPowerSign s = s) := by
  refine ⟨fun _ => rfl, fun _ => rfl, fun _ => rfl, fun _ => rfl, fun _ => rfl,
    ?_, ?_, ?_, ?_, ?_, ?_, ?_, ?_, ?_, ?_, ?_, ?_, ?_⟩ <;>
    intro s <;> ext i <;> first | rfl | exact i.elim0

/-- C8: for every update family and every call, only the parameter array
and the family's named state arrays are mutated; each post-state equals
the pre-state overwritten solely at those fields, so the gradient array,
every scalar hyperparameter and the boolean flags are unchanged. -/
theorem frame_spec :
    (∀ (n : ℕ) (s : GradientDescentState n),
      ApplyGradientDescent s = { s with var := (ApplyGradientDescent s).var }) ∧
    (∀ (n : ℕ) (s : AdagradState n),
      ApplyAdagradKernel s =
        { s with var := (ApplyAdagradKernel s).var,
                 accum := (ApplyAdagradKernel s).accum }) ∧
    (∀ (n : ℕ) (s : AdagradState n),
      ApplyAdagrad s =
        { s with var := (ApplyAdagrad s).var,
                 accum := (ApplyAdagrad s).accum }) ∧
    (∀ (n : ℕ) (s : AdagradV2State n),
      ApplyAdagradV2Kernel s =
        { s with var := (ApplyAdagradV2Kernel s).var,
                 accum := (ApplyAdagradV2Kernel s).accum }) ∧
    (∀ (n : ℕ) (s : AdagradV2State n),
      ApplyAdagradV2 s =
        { s with var := (ApplyAdagradV2 s).var,
                 accum := (ApplyAdagradV2 s).accum }) ∧
    (∀ (n : ℕ) (s : AdadeltaState n),
      ApplyAdadeltaKernel s =
        { s with var := (ApplyAdadeltaKernel s).var,
                 accum := (ApplyAdadeltaKernel s).accum,
                 accum_update := (ApplyAdadeltaKernel s).accum_update }) ∧
    (∀ (n : ℕ) (s : AdadeltaState n),
      ApplyAdadelta s =
        { s with var := (ApplyAdadelta s).var,
                 accum := (ApplyAdadelta s).accum,
                 accum_update := (ApplyAdadelta s).accum_update }) ∧
    (∀ (n : ℕ) (s : MomentumState n),
      ApplyMomentum s =
        { s with var := (ApplyMomentum s).var,
                 accum := (ApplyMomentum s).accum }) ∧
    (∀ (n : ℕ) (s : MomentumState n),
      ApplyKerasMomentum s =
        { s with var := (ApplyKerasMomentum s).var,
                 accum := (ApplyKerasMomentum s).accum }) ∧
    (∀ (n : ℕ) (s : AdamState n),
      ApplyAdam s =
        { s with var := (ApplyAdam s).var, m := (ApplyAdam s).m,
                 v := (ApplyAdam s).v }) ∧
    (∀ (n : ℕ) (s : AmsgradState n),
      ApplyAdamWithAmsgrad s =
        { s with var := (ApplyAdamWithAmsgrad s).var,
                 m := (ApplyAdamWithAmsgrad s).m,
                 v := (ApplyAdamWithAmsgrad s).v,
                 vhat := (ApplyAdamWithAmsgrad s).vhat }) ∧
    (∀ (n : ℕ) (s : AdaMaxState n),
      ApplyAdaMax s =
        { s with var := (ApplyAdaMax s).var, m := (ApplyAdaMax s).m,
                 v := (ApplyAdaMax s).v }) ∧
    (∀ (n : ℕ) (s : RMSPropState n),
      ApplyRMSPropKernel s =
        { s with var := (ApplyRMSPropKernel s).var,
                 ms := (ApplyRMSPropKernel s).ms,
                 mom := (ApplyRMSPropKernel s).mom }) ∧
    (∀ (n : ℕ) (s : RMSPropState n),
      ApplyRMSProp s =
        { s with var := (ApplyRMSProp s).var, ms := (ApplyRMSProp s).ms,
                 mom := (ApplyRMSProp s).mom }) ∧
    (∀ (n : ℕ) (s : CenteredRMSPropState n),
      ApplyCenteredRMSPropKernel s =
        { s with var := (ApplyCenteredRMSPropKernel s).var,
                 mg := (ApplyCenteredRMSPropKernel s).mg,
                 ms := (ApplyCenteredRMSPropKernel s).ms,
                 mom := (ApplyCenteredRMSPropKernel s).mom }) ∧
    (∀ (n : ℕ) (s : CenteredRMSPropState n),
      ApplyCenteredRMSProp s =
        { s with var := (ApplyCenteredRMSProp s).var,
                 mg := (ApplyCenteredRMSProp s).mg,
                 ms := (ApplyCenteredRMSProp s).ms,
                 mom := (ApplyCenteredRMSProp s).mom }) ∧
    (∀ (n : ℕ) (s : AddSignState n),
      ApplyAddSign s =
        { s with var := (ApplyAddSign s).var, m := (ApplyAddSign s).m }) ∧
    (∀ (n : ℕ) (s : PowerSignState n),
      ApplyPowerSign s =
        { s with var := (ApplyPowerSign s).var, m := (ApplyPowerSign s).m }) :=
  ⟨fun _ _ => rfl, fun _ _ => rfl, fun _ _ => rfl, fun _ _ => rfl,
   fun _ _ => rfl, fun _ _ => rfl, fun _ _ => rfl, fun _ _ => rfl,
   fun _ _ => rfl, fun _ _ => rfl, fun _ _ => rfl, fun _ _ => rfl,
   fun _ _ => rfl, fun _ _ => rfl, fun _ _ => rfl, fun _ _ => rfl,
   fun _ _ => rfl, fun _ _ => rfl⟩

end TrainingOps
